import Mathlib

/-!
Shallow embedding of the peer-discovery / DHT-bootstrap / node-membership
subsystem of masa-oracle, translated from the Go sources:

* `pkg/network` (`WithDht`, the bootstrap connector and routing-table callbacks),
* `pkg` (`OracleNode.Start`, `handleDiscoveredPeers`, `handleStream`),
* `cmd/masa-node/main.go` (the shutdown signal handler).

External effects (resolution, dialing, stream opening/writing) are modelled by
an oracle record `AddrOutcome` saying what the world answers, and each code
path is embedded as a function producing the trace of observable actions the
Go code performs on that path.
-/

namespace MasaOracle

/-- Peer identities are compared by their string form in the Go code
(`remotePeer.String()`), so we model them as strings. -/
abbrev PeerID := String

/-- Multiaddresses, kept abstract as strings. -/
abbrev Multiaddr := String

/-! ## Constants from `pkg/network` (part_001, lines 20-25) -/

/-- Source: `maxRetries = 3`. -/
def maxRetries : Nat := 3

/-- Source: `retryDelay = time.Second * 5`, modelled in seconds. -/
def retryDelaySeconds : Nat := 5

/-- Source: `PeerAdded = "PeerAdded"`. -/
def PeerAdded : String := "PeerAdded"

/-- Source: `PeerRemoved = "PeerRemoved"`. -/
def PeerRemoved : String := "PeerRemoved"

/-! ## PeerEvent (pkg/pubsub, shape as used by part_001 and part_002) -/

/-- A membership event sent on the peer channel. The Go struct carries a
`peer.AddrInfo`; only its `ID` is set by the routing-table callbacks, so we
keep the identity. -/
structure PeerEvent where
  peerId : PeerID
  action : String
  source : String
deriving DecidableEq, Repr

/-- Source (part_001, lines 45-54): the `RoutingTable().PeerAdded` callback
builds `PeerEvent{AddrInfo: peer.AddrInfo{ID: p}, Action: PeerAdded,
Source: "kdht"}` and sends it on the peer channel. -/
def routingTablePeerAddedEvent (p : PeerID) : PeerEvent :=
  { peerId := p, action := PeerAdded, source := "kdht" }

/-- Source (part_001, lines 56-64): the `RoutingTable().PeerRemoved` callback
builds `PeerEvent{AddrInfo: peer.AddrInfo{ID: p}, Action: PeerRemoved,
Source: "kdht"}` and sends it on the peer channel. -/
def routingTablePeerRemovedEvent (p : PeerID) : PeerEvent :=
  { peerId := p, action := PeerRemoved, source := "kdht" }

/-! ## Bootstrap connector (`WithDht`, part_001 lines 70-132) -/

/-- Result of `kademliaDHT.RoutingTable().TryAddPeer` for one bootstrap peer:
the call can error, report the peer not added, or succeed (part_001
lines 83-90). -/
inductive TryAddOutcome
  | errored
  | notAdded
  | added
deriving DecidableEq, Repr

/-- Oracle describing what the outside world answers during the processing of
one bootstrap address: the result of `peer.AddrInfoFromP2pAddr` (`none` models
the error case, where the returned `*peer.AddrInfo` is nil), of `TryAddPeer`,
of `host.Connect`, of `host.NewStream` and of `stream.Write`. -/
structure AddrOutcome where
  resolved : Option PeerID
  tryAdd : TryAddOutcome
  connectOk : Bool
  newStreamOk : Bool
  writeOk : Bool
deriving DecidableEq, Repr

/-- Observable actions performed while processing one bootstrap address,
in program order. -/
inductive BootAction
  | logResolveError
  | panicNilDeref
  | logSkipSelf
  | tryAddPeer (p : PeerID)
  | logTryAddError
  | logTryAddNotAdded
  | logTryAddOk
  | connectAttempt (p : PeerID)
  | logConnectError
  | sleepRetryDelay
  | newStreamCall (p : PeerID)
  | logStreamOpenError
  | writeStream
  | logWriteError
  | closeStream
deriving DecidableEq, Repr

/-- Embedding of the per-address goroutine body (part_001, lines 94-126).
Returns the trace of actions and the increment applied to
`peerConnectionCount` (which the Go code bumps right after `NewStream`
succeeds, before the write). On connect failure the local `counter`
(initialised to 0 in the enclosing loop iteration, line 93) is incremented
once; the guard `counter >= maxRetries` is then checked, and since it does not
hold the goroutine sleeps `retryDelay` and falls off the end — there is no
loop around the attempt. The stream close is a `defer`, so it runs on exit
after the write or the write-error log. -/
def connectGoroutine (o : AddrOutcome) (p : PeerID) : List BootAction × Nat :=
  if o.connectOk then
    if o.newStreamOk then
      if o.writeOk then
        ([BootAction.connectAttempt p, BootAction.newStreamCall p,
          BootAction.writeStream, BootAction.closeStream], 1)
      else
        ([BootAction.connectAttempt p, BootAction.newStreamCall p,
          BootAction.logWriteError, BootAction.closeStream], 1)
    else
      ([BootAction.connectAttempt p, BootAction.newStreamCall p,
        BootAction.logStreamOpenError], 0)
  else
    let counter := 1
    if counter ≥ maxRetries then
      ([BootAction.connectAttempt p, BootAction.logConnectError], 0)
    else
      ([BootAction.connectAttempt p, BootAction.logConnectError,
        BootAction.sleepRetryDelay], 0)

/-- Number of `host.Connect` calls recorded in a trace. -/
def connectAttemptsIn (t : List BootAction) : Nat :=
  t.countP fun a =>
    match a with
    | BootAction.connectAttempt _ => true
    | _ => false

/-- Outcome of processing one bootstrap address in the `for` loop of
`WithDht`. -/
inductive AddrStep
  | panicked (trace : List BootAction)
  | skippedSelf (trace : List BootAction)
  | attempted (trace : List BootAction) (connDelta : Nat)
deriving DecidableEq, Repr

/-- Embedding of one iteration of the bootstrap loop (part_001, lines 73-127).
On resolution failure the Go code logs `kdht: ...` but has no `continue`;
`peer.AddrInfoFromP2pAddr` returned a nil pointer together with the error, and
the very next line `peerInfo.ID == host.ID()` dereferences it, so the process
panics (`.panicked`). Otherwise the loop checks the self-dial guard, calls
`TryAddPeer` (logging each of its three outcomes), and spawns the connect
goroutine. -/
def processBootstrapAddr (selfId : PeerID) (o : AddrOutcome) : AddrStep :=
  match o.resolved with
  | none => AddrStep.panicked [BootAction.logResolveError, BootAction.panicNilDeref]
  | some p =>
    if p = selfId then
      AddrStep.skippedSelf [BootAction.logSkipSelf]
    else
      let addLog :=
        match o.tryAdd with
        | TryAddOutcome.errored => BootAction.logTryAddError
        | TryAddOutcome.notAdded => BootAction.logTryAddNotAdded
        | TryAddOutcome.added => BootAction.logTryAddOk
      let r := connectGoroutine o p
      AddrStep.attempted (BootAction.tryAddPeer p :: addLog :: r.1) r.2

/-- Connection-count contribution of one step. -/
def AddrStep.connDelta : AddrStep → Nat
  | AddrStep.attempted _ c => c
  | _ => 0

/-- Embedding of the whole bootstrap loop followed by `wg.Wait()` (part_001,
lines 70-128): every address is processed, and the accumulated
`peerConnectionCount` is available only after all attempts finished. `none`
models the nil-pointer panic escaping `WithDht` (the process crashes, nothing
is returned). -/
def runBootstrap (selfId : PeerID) : List AddrOutcome → Option (List AddrStep × Nat)
  | [] => some ([], 0)
  | o :: rest =>
    match processBootstrapAddr selfId o with
    | AddrStep.panicked _ => none
    | step =>
      match runBootstrap selfId rest with
      | none => none
      | some (steps, c) => some (step :: steps, step.connDelta + c)

/-- The observable result of `WithDht` after the bootstrap phase. `some run`
models `WithDht` returning `(kademliaDHT, nil)`: the loop and `wg.Wait()`
completed and the function reaches `return kademliaDHT, nil` (line 132)
unconditionally; `warned` records whether the soft warning
`len(bootstrapNodes) > 0 && peerConnectionCount == 0` (lines 129-131) was
logged. `none` models the panic of an unresolvable address. -/
structure WithDhtRun where
  steps : List AddrStep
  connCount : Nat
  warned : Bool
deriving DecidableEq, Repr

/-- Embedding of `WithDht`'s bootstrap phase and return (part_001,
lines 70-132). -/
def withDhtBootstrap (selfId : PeerID) (outcomes : List AddrOutcome) :
    Option WithDhtRun :=
  match runBootstrap selfId outcomes with
  | none => none
  | some (steps, c) =>
    some { steps := steps, connCount := c,
           warned := decide (0 < outcomes.length) && decide (c = 0) }

/-! ## Discovery dispatcher (`OracleNode.handleDiscoveredPeers`, part_002
lines 169-190) -/

/-- Network-level actions the dispatcher performs. -/
inductive NetAction
  | connect (p : PeerID)
  | closePeer (p : PeerID)
deriving DecidableEq, Repr

/-- Embedding of one dispatch of a received `PeerEvent` (part_002,
lines 172-185): after the debug log, if `peer.Action == myNetwork.PeerAdded`
the node calls `host.Connect`; on failure it logs and calls
`Network().ClosePeer` before `continue`. Any other action (in particular
`PeerRemoved`) performs no network call. `connectOk` is the oracle for
`host.Connect`'s success. -/
def dispatchEvent (connectOk : PeerID → Bool) (e : PeerEvent) : List NetAction :=
  if e.action = PeerAdded then
    if connectOk e.peerId then
      [NetAction.connect e.peerId]
    else
      [NetAction.connect e.peerId, NetAction.closePeer e.peerId]
  else
    []

/-- One observed step of the dispatcher's `select`: either a `PeerEvent`
arrives on `node.PeerChan`, or `node.Context.Done()` fires. -/
inductive DispatcherInput
  | event (e : PeerEvent)
  | ctxDone
deriving DecidableEq, Repr

/-- Embedding of the `handleDiscoveredPeers` loop over a finite observed
sequence of `select` outcomes: events are dispatched in order until the
context-done case returns from the loop; inputs after that point are never
consumed. -/
def handleDiscoveredPeers (connectOk : PeerID → Bool) :
    List DispatcherInput → List NetAction
  | [] => []
  | DispatcherInput.ctxDone :: _ => []
  | DispatcherInput.event e :: rest =>
    dispatchEvent connectOk e ++ handleDiscoveredPeers connectOk rest

/-! ## Node data and the stream handler (`OracleNode.handleStream`, part_002
lines 192-215) -/

/-- Membership activity (pkg/pubsub `ActivityJoined` / `ActivityLeft`). -/
inductive Activity
  | joined
  | left
deriving DecidableEq, Repr

/-- The NodeData record, with the fields `handleStream` reads and writes. -/
structure NodeData where
  peerId : PeerID
  ethAddress : String
  isStaked : Bool
  multiaddress : Multiaddr
  activity : Activity
deriving DecidableEq, Repr

/-- Modelled from the spec: `pubsub.NewNodeData` lives in pkg/pubsub, which is
not part of the visible core; per §3 it creates the membership record for the
given address, peer identity, chain address and activity (the staked flag is
set separately by the caller). -/
def NewNodeData (addr : Multiaddr) (p : PeerID) (eth : String) (a : Activity) :
    NodeData :=
  { peerId := p, ethAddress := eth, isStaked := false,
    multiaddress := addr, activity := a }

/-- Go `strings.HasPrefix`, on the underlying character lists. -/
def hasPrefixGo (s pre : String) : Bool :=
  pre.data.isPrefixOf s.data

/-- Result of `node.handleStreamData(stream)` as seen by `handleStream`:
either an error (carrying Go's `err.Error()` message) or the connection's
remote peer identity together with the decoded payload. -/
inductive StreamDataResult
  | failure (errMsg : String)
  | success (remotePeer : PeerID) (payload : NodeData)
deriving DecidableEq, Repr

/-- A call to `NodeTracker.AddOrUpdateNodeData(data, allowDowngrade)`. -/
structure TrackerUpsert where
  data : NodeData
  allowDowngrade : Bool
deriving DecidableEq, Repr

/-- The observable outcome of `handleStream`. -/
inductive HandleStreamOutcome
  | silentReject
  | loggedError (msg : String)
  | rejectedMismatch (remote : PeerID)
  | upserted (call : TrackerUpsert)
deriving DecidableEq, Repr

/-- Embedding of `OracleNode.handleStream` (part_002, lines 192-215). On error
from `handleStreamData`: if the message has prefix `"un-staked"` the error is
ignored and the handler returns (`.silentReject`); otherwise it is logged via
`logrus.Errorf` (`.loggedError`). On success: if the remote identity differs
from the payload's claimed `PeerId` the handler only logs a warning and
returns (`.rejectedMismatch`); otherwise it builds a fresh record from the
connection's remote multiaddress via `NewNodeData`, copies the payload's
`IsStaked`, and calls `AddOrUpdateNodeData(newNodeData, false)`
(`.upserted`). -/
def handleStream (remoteMultiaddr : Multiaddr) (r : StreamDataResult) :
    HandleStreamOutcome :=
  match r with
  | StreamDataResult.failure msg =>
    if hasPrefixGo msg "un-staked" then
      HandleStreamOutcome.silentReject
    else
      HandleStreamOutcome.loggedError msg
  | StreamDataResult.success remotePeer payload =>
    if remotePeer = payload.peerId then
      HandleStreamOutcome.upserted
        { data := { NewNodeData remoteMultiaddr remotePeer payload.ethAddress
                      Activity.joined with isStaked := payload.isStaked },
          allowDowngrade := false }
    else
      HandleStreamOutcome.rejectedMismatch remotePeer

/-- The Tracker mutation performed by a `handleStream` outcome, if any:
`AddOrUpdateNodeData` is called exactly on the `.upserted` path. -/
def trackerCall : HandleStreamOutcome → Option TrackerUpsert
  | HandleStreamOutcome.upserted c => some c
  | _ => none

/-! ## Stream-handler registration (`OracleNode.Start`, part_002
lines 127-133) -/

/-- The three inbound stream protocols of `Start`: the node's primary
protocol (`node.Protocol`, handled by `handleStream`), the node-data sync
protocol (`ReceiveNodeData`), and the gossip protocol (`GossipNodeData`). -/
inductive StreamProtocolKind
  | primary
  | nodeDataSync
  | gossip
deriving DecidableEq, Repr

/-- Embedding of the `SetStreamHandler` calls in `Start` (part_002,
lines 127-132): the primary and node-data-sync handlers are installed
unconditionally, the gossip handler only inside `if node.IsStaked`. -/
def registeredStreamHandlers (isStaked : Bool) : List StreamProtocolKind :=
  [StreamProtocolKind.primary, StreamProtocolKind.nodeDataSync] ++
    (if isStaked then [StreamProtocolKind.gossip] else [])

/-! ## Shutdown signal handler (cmd/masa-node/main.go, lines 70-83) -/

/-- Operations executed by the signal-handler goroutine. -/
inductive ShutdownOp
  | markLeft (p : PeerID)
  | dumpNodeData
  | cancelCtx
deriving DecidableEq, Repr

/-- Embedding of the signal-handler goroutine in `main` (lines 75-83): after
the signal is received it fetches the local node's record from the Tracker,
calls `nodeData.Left()` when one exists, then `DumpNodeData()`, then
`cancel()`, in that order. -/
def shutdownHandler (selfId : PeerID) (hasSelfRecord : Bool) : List ShutdownOp :=
  (if hasSelfRecord then [ShutdownOp.markLeft selfId] else []) ++
    [ShutdownOp.dumpNodeData, ShutdownOp.cancelCtx]

/-- Modelled from the spec: the Tracker state touched at shutdown.
`NodeEventTracker` (pkg/pubsub) is not part of the visible core; per §3/§4.3
it owns the mapping from peer identity to membership activity, `Left()` marks
a record's activity `Left`, and `DumpNodeData` persists a snapshot of the full
mapping. `dumped` holds the persisted snapshot, `cancelled` whether the
context has been cancelled. -/
structure ShutdownState where
  tracker : List (PeerID × Activity)
  dumped : Option (List (PeerID × Activity))
  cancelled : Bool
deriving DecidableEq, Repr

/-- Effect of one shutdown operation on the state. -/
def ShutdownState.apply (s : ShutdownState) : ShutdownOp → ShutdownState
  | ShutdownOp.markLeft p =>
    { s with tracker := s.tracker.map fun q =>
        if q.1 = p then (p, Activity.left) else q }
  | ShutdownOp.dumpNodeData => { s with dumped := some s.tracker }
  | ShutdownOp.cancelCtx => { s with cancelled := true }

/-- Run a sequence of shutdown operations from a state. -/
def runShutdown (s : ShutdownState) (ops : List ShutdownOp) : ShutdownState :=
  ops.foldl ShutdownState.apply s

/-! ## Concrete oracles used by witnesses and counterexamples -/

/-- A bootstrap address that resolves but whose connection attempt fails. -/
def bootFailOutcome : AddrOutcome :=
  { resolved := some "boot1", tryAdd := TryAddOutcome.added, connectOk := false,
    newStreamOk := false, writeOk := false }

/-- A bootstrap address that cannot be resolved to a peer identity
(for example, a multiaddress with no p2p component): `AddrInfoFromP2pAddr`
errors and returns a nil pointer. -/
def unresolvableOutcome : AddrOutcome :=
  { resolved := none, tryAdd := TryAddOutcome.added, connectOk := true,
    newStreamOk := true, writeOk := true }

/-- A bootstrap peer that connects and opens the handshake stream, but whose
NodeData write fails. -/
def bootWriteFailOutcome : AddrOutcome :=
  { resolved := some "boot2", tryAdd := TryAddOutcome.added, connectOk := true,
    newStreamOk := true, writeOk := false }

/-! ## Helper lemmas -/

/-- When every bootstrap address resolves, the loop processes each of them
(no panic), and the run is returned with one step per address. -/
theorem withDhtBootstrap_total (selfId : PeerID) (outcomes : List AddrOutcome)
    (h : ∀ o ∈ outcomes, o.resolved.isSome) :
    ∃ r, withDhtBootstrap selfId outcomes = some r ∧
      r.steps.length = outcomes.length ∧
      r.warned = (decide (0 < outcomes.length) && decide (r.connCount = 0)) := by
  suffices hrun : ∃ steps c, runBootstrap selfId outcomes = some (steps, c) ∧
      steps.length = outcomes.length by
    obtain ⟨steps, c, hrb, hlen⟩ := hrun
    exact ⟨{ steps := steps, connCount := c,
             warned := decide (0 < outcomes.length) && decide (c = 0) },
           by simp [withDhtBootstrap, hrb], hlen, rfl⟩
  induction outcomes with
  | nil => exact ⟨[], 0, rfl, rfl⟩
  | cons o rest ih =>
    obtain ⟨steps, c, hrb, hlen⟩ :=
      ih fun x hx => h x (List.mem_cons_of_mem o hx)
    obtain ⟨p, hp⟩ := Option.isSome_iff_exists.mp (h o (List.mem_cons_self o rest))
    by_cases hself : p = selfId
    · refine ⟨AddrStep.skippedSelf [BootAction.logSkipSelf] :: steps, c, ?_, by simp [hlen]⟩
      simp [runBootstrap, processBootstrapAddr, hp, hself, hrb, AddrStep.connDelta]
    · refine ⟨AddrStep.attempted
        (BootAction.tryAddPeer p ::
          (match o.tryAdd with
           | TryAddOutcome.errored => BootAction.logTryAddError
           | TryAddOutcome.notAdded => BootAction.logTryAddNotAdded
           | TryAddOutcome.added => BootAction.logTryAddOk) ::
          (connectGoroutine o p).1) (connectGoroutine o p).2 :: steps,
        (connectGoroutine o p).2 + c, ?_, by simp [hlen]⟩
      simp [runBootstrap, processBootstrapAddr, hp, hself, hrb, AddrStep.connDelta]

/-! ## Claims -/

/-- C1 counterexample: the claim says a failed direct connection to a
bootstrap address is retried up to `maxRetries = 3`, so after the first
failure at least one further attempt would occur. In the embedding of the
per-address goroutine, an address whose connection fails sees exactly one
`host.Connect` call — never a second — even though `maxRetries` is 3. -/
theorem c1_counterexample :
    connectAttemptsIn (connectGoroutine bootFailOutcome "boot1").1 = 1 ∧
    ¬ 2 ≤ connectAttemptsIn (connectGoroutine bootFailOutcome "boot1").1 ∧
    maxRetries = 3 := by decide

/-- C1 (amended): for every bootstrap address whose direct connection attempt
fails, exactly one connection attempt is made (the per-iteration failure
counter reaches only 1, below `maxRetries = 3`, so the goroutine sleeps the
`retryDelay` once and exits without retrying), and the failure of one address
does not abort the processing of the other addresses: the loop still produces
one completed step per configured address. -/
theorem c1_amended_single_attempt (o : AddrOutcome) (p selfId : PeerID)
    (outcomes : List AddrOutcome) (hfail : o.connectOk = false)
    (hres : ∀ x ∈ outcomes, x.resolved.isSome) :
    connectAttemptsIn (connectGoroutine o p).1 = 1 ∧
    BootAction.sleepRetryDelay ∈ (connectGoroutine o p).1 ∧
    ∃ r, withDhtBootstrap selfId outcomes = some r ∧
      r.steps.length = outcomes.length := by
  refine ⟨?_, ?_, ?_⟩
  · simp [connectGoroutine, hfail, maxRetries, connectAttemptsIn]
  · simp [connectGoroutine, hfail, maxRetries]
  · obtain ⟨r, hr, hlen, -⟩ := withDhtBootstrap_total selfId outcomes hres
    exact ⟨r, hr, hlen⟩

/-- C1 witness: the amended theorem applied to a concrete failing address. -/
theorem c1_amended_witness :
    bootFailOutcome.connectOk = false ∧
    connectAttemptsIn (connectGoroutine bootFailOutcome "boot1").1 = 1 ∧
    BootAction.sleepRetryDelay ∈ (connectGoroutine bootFailOutcome "boot1").1 := by
  have h := c1_amended_single_attempt bootFailOutcome "boot1" "self" [] rfl
    (by simp)
  exact ⟨rfl, h.1, h.2.1⟩

/-- C4 (code bug): for a bootstrap address that fails to resolve, the Go code
logs the resolution error but, lacking a `continue`, immediately dereferences
the nil `peerInfo` returned alongside the error (`peerInfo.ID == host.ID()`),
so the process panics instead of skipping the address; `WithDht` crashes
rather than processing the remaining addresses. -/
theorem c4_unresolved_address_panics :
    processBootstrapAddr "self" unresolvableOutcome =
      AddrStep.panicked [BootAction.logResolveError, BootAction.panicNilDeref] ∧
    withDhtBootstrap "self" [unresolvableOutcome] = none := by decide

/-- C5: the bootstrap connector completes every configured address's attempt
before producing its result (one step per address, the embedding of
`wg.Wait()`), and it returns the constructed DHT with a nil error
(`some` run) regardless of how many connections succeeded; when at least one
address was configured and no attempt yielded a successful connection, the
soft warning is logged (`warned = true`), never a fatal error. With zero
addresses it likewise returns without error. The hypothesis restricts to
addresses that resolve to a peer identity (an unresolvable address panics,
see the C4 analysis). -/
theorem c5_blocks_and_soft_warns (selfId : PeerID) (outcomes : List AddrOutcome)
    (hres : ∀ o ∈ outcomes, o.resolved.isSome) :
    ∃ r, withDhtBootstrap selfId outcomes = some r ∧
      r.steps.length = outcomes.length ∧
      (outcomes ≠ [] → r.connCount = 0 → r.warned = true) := by
  obtain ⟨r, hr, hlen, hw⟩ := withDhtBootstrap_total selfId outcomes hres
  refine ⟨r, hr, hlen, fun hne hc => ?_⟩
  rw [hw, hc]
  cases outcomes with
  | nil => exact absurd rfl hne
  | cons o rest => simp

/-- C5 witness: a single resolvable but unreachable bootstrap address — the
connector returns a run (nil error) rather than failing. -/
theorem c5_witness :
    (∀ o ∈ [bootFailOutcome], o.resolved.isSome) ∧
    (withDhtBootstrap "self" [bootFailOutcome]).isSome = true := by
  have h := c5_blocks_and_soft_warns "self" [bootFailOutcome] (by decide)
  refine ⟨by decide, ?_⟩
  obtain ⟨r, hr, -, -⟩ := h
  rw [hr]
  rfl

/-- C2: in `handleStream`, whenever the connection's remote peer identity
differs from the `peerId` claimed in the payload, the payload is rejected and
`AddOrUpdateNodeData` is not called; when the identities match, the handler
calls `AddOrUpdateNodeData` with `allowDowngrade = false` on a record built
from the connection's remote multiaddress, the remote identity, the payload's
chain address and staked flag, with activity Joined. -/
theorem c2_identity_gate (ma : Multiaddr) (remote : PeerID) (payload : NodeData) :
    (remote ≠ payload.peerId →
      trackerCall (handleStream ma (StreamDataResult.success remote payload)) = none) ∧
    (remote = payload.peerId →
      handleStream ma (StreamDataResult.success remote payload) =
        HandleStreamOutcome.upserted
          { data := { peerId := remote, ethAddress := payload.ethAddress,
                      isStaked := payload.isStaked, multiaddress := ma,
                      activity := Activity.joined },
            allowDowngrade := false }) := by
  constructor
  · intro h
    simp [handleStream, h, trackerCall]
  · intro h
    simp [handleStream, h, NewNodeData]

/-- C2 witness: a spoofed payload (remote A claiming to be B) causes no
Tracker call; a matching payload is upserted with allowDowngrade false. -/
theorem c2_witness :
    trackerCall (handleStream "addr"
      (StreamDataResult.success "peerA"
        { peerId := "peerB", ethAddress := "0xE", isStaked := true,
          multiaddress := "m", activity := Activity.joined })) = none ∧
    handleStream "addr"
      (StreamDataResult.success "peerB"
        { peerId := "peerB", ethAddress := "0xE", isStaked := true,
          multiaddress := "m", activity := Activity.joined }) =
      HandleStreamOutcome.upserted
        { data := { peerId := "peerB", ethAddress := "0xE", isStaked := true,
                    multiaddress := "addr", activity := Activity.joined },
          allowDowngrade := false } := by
  refine ⟨?_, ?_⟩
  · exact (c2_identity_gate "addr" "peerA"
      { peerId := "peerB", ethAddress := "0xE", isStaked := true,
        multiaddress := "m", activity := Activity.joined }).1 (by decide)
  · exact (c2_identity_gate "addr" "peerB"
      { peerId := "peerB", ethAddress := "0xE", isStaked := true,
        multiaddress := "m", activity := Activity.joined }).2 rfl

/-- C3: a stream-handling error whose message has prefix "un-staked" makes
`handleStream` return silently (no error log); any other error is logged via
`logrus.Errorf`; in both cases no Tracker mutation occurs
(`AddOrUpdateNodeData` is never called on a failure path). -/
theorem c3_unstaked_silent (ma : Multiaddr) (msg : String) :
    (hasPrefixGo msg "un-staked" = true →
      handleStream ma (StreamDataResult.failure msg) =
        HandleStreamOutcome.silentReject) ∧
    (hasPrefixGo msg "un-staked" = false →
      handleStream ma (StreamDataResult.failure msg) =
        HandleStreamOutcome.loggedError msg) ∧
    trackerCall (handleStream ma (StreamDataResult.failure msg)) = none := by
  refine ⟨fun h => by simp [handleStream, h], fun h => by simp [handleStream, h], ?_⟩
  by_cases h : hasPrefixGo msg "un-staked" <;>
    simp [handleStream, h, trackerCall]

/-- C3 witness: an un-staked classified error is silently ignored, another
error is logged, and neither touches the Tracker. -/
theorem c3_witness :
    handleStream "addr" (StreamDataResult.failure "un-staked node") =
      HandleStreamOutcome.silentReject ∧
    handleStream "addr" (StreamDataResult.failure "read deadline exceeded") =
      HandleStreamOutcome.loggedError "read deadline exceeded" ∧
    trackerCall (handleStream "addr" (StreamDataResult.failure "un-staked node")) =
      none := by
  refine ⟨?_, ?_, ?_⟩
  · exact (c3_unstaked_silent "addr" "un-staked node").1 (by decide)
  · exact (c3_unstaked_silent "addr" "read deadline exceeded").2.1 (by decide)
  · exact (c3_unstaked_silent "addr" "un-staked node").2.2

/-- C6: the dispatcher attempts `Connect` for every `PeerAdded` event and, on
connect failure, follows it with `ClosePeer` before continuing; a
`PeerRemoved` event causes no network action; and the loop processes exactly
the events received before the cancellation context fires — everything after
`ctxDone` is never consumed. -/
theorem c6_dispatcher (connectOk : PeerID → Bool) (e f : PeerEvent)
    (pre : List PeerEvent) (post : List DispatcherInput)
    (hAdd : e.action = PeerAdded) (hRem : f.action = PeerRemoved) :
    dispatchEvent connectOk e =
      NetAction.connect e.peerId ::
        (if connectOk e.peerId then [] else [NetAction.closePeer e.peerId]) ∧
    dispatchEvent connectOk f = [] ∧
    handleDiscoveredPeers connectOk
        (pre.map DispatcherInput.event ++ DispatcherInput.ctxDone :: post) =
      (pre.map (dispatchEvent connectOk)).flatten := by
  refine ⟨?_, ?_, ?_⟩
  · by_cases h : connectOk e.peerId <;> simp [dispatchEvent, hAdd, h]
  · simp [dispatchEvent, hRem, PeerRemoved, PeerAdded]
  · induction pre with
    | nil => simp [handleDiscoveredPeers]
    | cons x xs ih => simp [handleDiscoveredPeers, ih]

/-- C6 witness: the dispatcher theorem at a concrete trace — a failing
connect is followed by a close, a removal does nothing, and an event after
cancellation is ignored. -/
theorem c6_witness :
    dispatchEvent (fun _ => false)
        { peerId := "p1", action := "PeerAdded", source := "kdht" } =
      [NetAction.connect "p1", NetAction.closePeer "p1"] ∧
    dispatchEvent (fun _ => false)
        { peerId := "p2", action := "PeerRemoved", source := "mdns" } = [] ∧
    handleDiscoveredPeers (fun _ => false)
        ([{ peerId := "p1", action := "PeerAdded", source := "kdht" }].map
            DispatcherInput.event ++
          DispatcherInput.ctxDone ::
            [DispatcherInput.event
              { peerId := "p2", action := "PeerRemoved", source := "mdns" }]) =
      ([{ peerId := "p1", action := "PeerAdded", source := "kdht" }].map
          (dispatchEvent (fun _ => false))).flatten := by
  have h := c6_dispatcher (fun _ => false)
    { peerId := "p1", action := "PeerAdded", source := "kdht" }
    { peerId := "p2", action := "PeerRemoved", source := "mdns" }
    [{ peerId := "p1", action := "PeerAdded", source := "kdht" }]
    [DispatcherInput.event
      { peerId := "p2", action := "PeerRemoved", source := "mdns" }]
    rfl rfl
  exact ⟨by simpa using h.1, h.2.1, h.2.2⟩

/-- C7: whenever the bootstrap handshake stream is successfully opened
(connection established and `NewStream` succeeded), the attempt's trace ends
with the stream close, on both the successful-write path and the failed-write
path — the deferred close runs on every exit of the goroutine. -/
theorem c7_stream_always_closed (o : AddrOutcome) (p : PeerID)
    (hc : o.connectOk = true) (hs : o.newStreamOk = true) :
    BootAction.newStreamCall p ∈ (connectGoroutine o p).1 ∧
    (connectGoroutine o p).1.getLast? = some BootAction.closeStream := by
  by_cases hw : o.writeOk <;> simp [connectGoroutine, hc, hs, hw]

/-- C7 witness: the stream is closed even when writing the self-announced
NodeData payload fails. -/
theorem c7_witness :
    BootAction.newStreamCall "boot2" ∈
      (connectGoroutine bootWriteFailOutcome "boot2").1 ∧
    (connectGoroutine bootWriteFailOutcome "boot2").1.getLast? =
      some BootAction.closeStream :=
  c7_stream_always_closed bootWriteFailOutcome "boot2" rfl rfl

/-- C8 counterexample: the routing-table callbacks tag their PeerEvents with
source "kdht", not "routing-table" as the claim states. -/
theorem c8_counterexample :
    (routingTablePeerAddedEvent "QmBoot").source = "kdht" ∧
    (routingTablePeerAddedEvent "QmBoot").source ≠ "routing-table" := by decide

/-- C8 (amended): every PeerEvent emitted for a routing-table membership
change carries the source tag "kdht", with action PeerAdded on addition and
PeerRemoved on eviction. -/
theorem c8_amended_kdht_source (p : PeerID) :
    (routingTablePeerAddedEvent p).source = "kdht" ∧
    (routingTablePeerAddedEvent p).action = PeerAdded ∧
    (routingTablePeerRemovedEvent p).source = "kdht" ∧
    (routingTablePeerRemovedEvent p).action = PeerRemoved :=
  ⟨rfl, rfl, rfl, rfl⟩

/-- C9: the shutdown signal handler runs mark-Left, dump, cancel in exactly
that order; the context is not yet cancelled when the dump is taken; after the
handler runs, the persisted snapshot records the local node as Left (and only
Left), and the context has been cancelled. The precondition is that the local
node's record exists in the Tracker (the handler marks it only then). -/
theorem c9_shutdown_order (selfId : PeerID) (tr : List (PeerID × Activity))
    (hmem : selfId ∈ tr.map Prod.fst) :
    shutdownHandler selfId true =
      [ShutdownOp.markLeft selfId, ShutdownOp.dumpNodeData, ShutdownOp.cancelCtx] ∧
    (runShutdown { tracker := tr, dumped := none, cancelled := false }
        [ShutdownOp.markLeft selfId, ShutdownOp.dumpNodeData]).cancelled = false ∧
    (runShutdown { tracker := tr, dumped := none, cancelled := false }
        (shutdownHandler selfId true)).cancelled = true ∧
    (∃ d, (runShutdown { tracker := tr, dumped := none, cancelled := false }
        (shutdownHandler selfId true)).dumped = some d ∧
      (selfId, Activity.left) ∈ d ∧
      ∀ a, (selfId, a) ∈ d → a = Activity.left) := by
  refine ⟨rfl, rfl, rfl,
    ⟨tr.map fun (q : PeerID × Activity) =>
        if q.1 = selfId then (selfId, Activity.left) else q,
      rfl, ?_, ?_⟩⟩
  · obtain ⟨q, hq, hq1⟩ := List.mem_map.mp hmem
    refine List.mem_map.mpr ⟨q, hq, ?_⟩
    simp [hq1]
  · intro a ha
    obtain ⟨q, hq, hqa⟩ := List.mem_map.mp ha
    by_cases hq1 : q.1 = selfId
    · rw [if_pos hq1] at hqa
      exact (Prod.mk.injEq _ _ _ _ ▸ hqa).2.symm ▸ rfl
    · rw [if_neg hq1] at hqa
      exact absurd (by rw [hqa]) hq1

/-- C9 witness: the shutdown theorem at a concrete Tracker holding the local
record and one remote record. -/
theorem c9_witness :
    (runShutdown
        { tracker := [("self", Activity.joined), ("peerB", Activity.joined)],
          dumped := none, cancelled := false }
        (shutdownHandler "self" true)).cancelled = true := by
  have h := c9_shutdown_order "self"
    [("self", Activity.joined), ("peerB", Activity.joined)] (by decide)
  exact h.2.2.1

/-- C10: `Start` installs the gossip-protocol stream handler exactly when the
local node is staked, while the primary-protocol and node-data-sync handlers
are installed unconditionally. -/
theorem c10_gossip_handler_staked_only (isStaked : Bool) :
    (StreamProtocolKind.gossip ∈ registeredStreamHandlers isStaked ↔
      isStaked = true) ∧
    StreamProtocolKind.primary ∈ registeredStreamHandlers isStaked ∧
    StreamProtocolKind.nodeDataSync ∈ registeredStreamHandlers isStaked := by
  cases isStaked <;> simp [registeredStreamHandlers]

end MasaOracle
